import Mathlib

/-!
Verification of the node-service orchestrator (`src/node/src/service.rs`).

The embedding models the wiring performed by `new_partial` and `new_full`:
reference-counted shared instances (`Arc<...>` in the source) are identified
by allocation ids, where allocating a fresh instance draws a fresh id from a
counter and `clone` preserves the id (two handles observe the same underlying
instance exactly when their ids are equal).  Background tasks spawned through
`TaskManager` are recorded with the handle class they were spawned on
(`spawn_essential_handle` versus `spawn_handle`).  The nested block-import
wrapping (`BabeBlockImport` around `FrontierBlockImport` around
`GrandpaBlockImport` around the client) is modelled by an explicit nesting
type.  External crates (`sc_service`, `sc_finality_grandpa`,
`sc_consensus_babe`, `fc_mapping_sync`, `sp_consensus_babe`) are modelled only
at the interfaces the service file uses, as the definitions note.
-/

namespace AutomataService

/-- Identity of a reference-counted shared instance: `Arc::new` (or a
constructor returning a fresh shared instance) draws a fresh id;
`Arc::clone` preserves it. -/
abbrev HandleId := Nat

/-- A `clone()` of a reference-counted handle: the clone observes the same
underlying instance, so the id is unchanged. -/
def cloneHandle (h : HandleId) : HandleId := h

/-- Drawing a fresh shared instance from the allocation counter. -/
def allocHandle (n : Nat) : HandleId × Nat := (n, n + 1)

/-- Which `TaskManager` handle a background task was spawned on:
`spawn_essential_handle()` (essential) or `spawn_handle()` (ordinary). -/
inductive SpawnClass
  | essential
  | ordinary
  deriving DecidableEq, Repr, Inhabited

/-- Whether the task was spawned with `spawn` or `spawn_blocking`. -/
inductive SpawnKind
  | normal
  | blocking
  deriving DecidableEq, Repr, Inhabited

/-- One background task spawned by the service file. -/
structure SpawnedTask where
  name : String
  cls : SpawnClass
  kind : SpawnKind
  deriving DecidableEq, Repr, Inhabited

/-- Modelled from the spec: the Task Lifecycle Manager contract of
`sc_service::TaskManager` (an external crate, not under `src/`): the
termination of a task spawned on the essential handle, success or failure,
triggers full service shutdown; the termination of an ordinary task is
logged and ignored. -/
def terminationTriggersShutdown : SpawnClass → Bool
  | .essential => true
  | .ordinary => false

/-- The node `Configuration` (the fields of `sc_service::Configuration`
that `service.rs` reads). -/
structure Configuration where
  keystoreRemote : Option String
  roleIsAuthority : Bool
  disableGrandpa : Bool
  forceAuthoring : Bool
  telemetryEndpointsNonempty : Bool
  offchainWorkerEnabled : Bool
  nodeName : String
  deriving DecidableEq, Repr, Inhabited

/-- The BABE genesis configuration obtained from
`sc_consensus_babe::Config::get_or_compute(&*client)` (external crate,
runtime-determined; modelled as a parameter of the construction).  The
service file reads only `slot_duration()`. -/
structure BabeConfig where
  slotDuration : Nat
  deriving DecidableEq, Repr, Inhabited

/-- The nested block-import wrapping built in `new_partial`: each layer holds
the next layer as its inner import and calls it only after its own checks.
`client` is the innermost import, committing to the chain store. -/
inductive BlockImport
  | client
  | grandpa (inner : BlockImport)
  | frontier (inner : BlockImport)
  | babe (inner : BlockImport)
  deriving DecidableEq, Repr, Inhabited

/-- The roles of the import stages, in the spec vocabulary. -/
inductive Stage
  | compatIndex
  | finalityAware
  | slotAuthoring
  | storeCommit
  deriving DecidableEq, Repr, Inhabited

/-- The stage chain of a nested block import, outermost (entered first)
first. -/
def stageOrder : BlockImport → List Stage
  | .client => [.storeCommit]
  | .grandpa inner => .finalityAware :: stageOrder inner
  | .frontier inner => .compatIndex :: stageOrder inner
  | .babe inner => .slotAuthoring :: stageOrder inner

/-- The stages that actually run when each stage forwards to its inner import
only if it accepts the block: the innermost `client` stage always commits
once reached. -/
def stagesExecuted (accepts : Stage → Bool) : BlockImport → List Stage
  | .client => [.storeCommit]
  | .grandpa inner =>
      .finalityAware :: (if accepts .finalityAware then stagesExecuted accepts inner else [])
  | .frontier inner =>
      .compatIndex :: (if accepts .compatIndex then stagesExecuted accepts inner else [])
  | .babe inner =>
      .slotAuthoring :: (if accepts .slotAuthoring then stagesExecuted accepts inner else [])

/-- A chained run over a stage list: each stage runs, the next stage runs
only if the current one accepts, and the final stage has no next stage to
call. -/
def chainRun (accepts : Stage → Bool) : List Stage → List Stage
  | [] => []
  | [s] => [s]
  | s :: rest => s :: (if accepts s then chainRun accepts rest else [])

/-- The GRANDPA link half returned by `sc_finality_grandpa::block_import`:
it owns the shared authority set and the justification stream. -/
structure GrandpaLink where
  sharedAuthoritySetId : HandleId
  justificationStreamId : HandleId
  deriving DecidableEq, Repr, Inhabited

/-- The BABE link returned by `sc_consensus_babe::block_import`: it holds the
BABE configuration and the shared epoch changes. -/
structure BabeLink where
  config : BabeConfig
  epochChangesId : HandleId
  deriving DecidableEq, Repr, Inhabited

/-- The service error type (`sc_service::error::Error`); the service file
itself only constructs the `Other(String)` variant. -/
inductive ServiceError
  | other (msg : String)
  deriving DecidableEq, Repr, Inhabited

/-- The components `new_partial` returns (`sc_service::PartialComponents`
plus the `other` triple), with shared instances as ids.
`importQueueSlotDuration` is the `slot_duration` value captured by the
inherent-data-provider closure of the import queue;
`pendingTransactionsId` is the pending-transaction map allocated at
service.rs line 163; `tasks` are the tasks `new_partial` spawns. -/
structure PartialComponents where
  clientId : HandleId
  backendId : HandleId
  keystoreContainerId : HandleId
  selectChainId : HandleId
  transactionPoolId : HandleId
  pendingTransactionsId : HandleId
  frontierBackendId : HandleId
  consensusImport : BlockImport
  grandpaLink : GrandpaLink
  babeLink : BabeLink
  importQueueSlotDuration : Nat
  tasks : List SpawnedTask
  deriving DecidableEq, Repr, Inhabited

/-- The telemetry worker task (`task_manager.spawn_handle().spawn("telemetry", ...)`). -/
def telemetryTask : SpawnedTask :=
  { name := "telemetry", cls := .ordinary, kind := .normal }

/-- Embedding of `new_partial` (service.rs lines 105-231).  A remote-keystore
configuration is rejected up front; otherwise the shared instances are
allocated in source order and the block-import nesting is built as
`babe (frontier (grandpa client))`.  External constructors
(`new_full_parts`, `BasicPool::new_full`, `open_frontier_backend`,
`block_import`, `import_queue`) are modelled as allocations of the shared
instances they return. -/
def newPartial (config : Configuration) (babeGenesis : BabeConfig) (n : Nat) :
    Except ServiceError (PartialComponents × Nat) :=
  if config.keystoreRemote.isSome then
    .error (.other "Remote Keystores are not supported.")
  else
    let (clientId, n) := allocHandle n
    let (backendId, n) := allocHandle n
    let (keystoreContainerId, n) := allocHandle n
    let (selectChainId, n) := allocHandle n
    let (transactionPoolId, n) := allocHandle n
    let (pendingTransactionsId, n) := allocHandle n
    let (frontierBackendId, n) := allocHandle n
    let telemetrySpawn : List SpawnedTask :=
      if config.telemetryEndpointsNonempty then [telemetryTask] else []
    let (sharedAuthoritySetId, n) := allocHandle n
    let (justificationStreamId, n) := allocHandle n
    let grandpaLink : GrandpaLink := { sharedAuthoritySetId, justificationStreamId }
    let grandpaBlockImport : BlockImport := .grandpa .client
    let frontierBlockImport : BlockImport := .frontier grandpaBlockImport
    let babeBlockImport : BlockImport := .babe frontierBlockImport
    let (epochChangesId, n) := allocHandle n
    let babeLink : BabeLink := { config := babeGenesis, epochChangesId }
    let slotDuration := babeLink.config.slotDuration
    .ok
      ({ clientId, backendId, keystoreContainerId, selectChainId,
         transactionPoolId, pendingTransactionsId, frontierBackendId,
         consensusImport := babeBlockImport, grandpaLink, babeLink,
         importQueueSlotDuration := slotDuration,
         tasks := telemetrySpawn }, n)

/-- Embedding of `remote_keystore` (service.rs lines 233-238): it
unconditionally fails. -/
def remoteKeystore (_url : String) : Except String HandleId :=
  .error "Remote Keystore not supported."

/-- The shared handles the `rpc_extensions_builder` closure captures
(service.rs lines 316-323 plus the surrounding bindings), all by
reference-counted clone. -/
structure RpcCaptured where
  clientId : HandleId
  poolId : HandleId
  keystoreId : HandleId
  selectChainId : HandleId
  pendingTransactionsId : HandleId
  frontierBackendId : HandleId
  rpcNetworkId : HandleId
  isAuthority : Bool
  babeConfig : BabeConfig
  sharedEpochChangesId : HandleId
  sharedVoterStateId : HandleId
  sharedAuthoritySetId : HandleId
  justificationStreamId : HandleId
  finalityProofProviderId : HandleId
  maxPastLogs : Nat
  deriving DecidableEq, Repr, Inhabited

/-- The dependency set one invocation of the builder hands to
`runtime_rpc::create_full` (the `FullDeps` record, service.rs lines
327-350), with the `BabeDeps` and `GrandpaDeps` sub-records flattened. -/
structure FullDeps where
  clientId : HandleId
  poolId : HandleId
  denyUnsafe : Bool
  enableDevSigner : Bool
  networkId : HandleId
  pendingTransactionsId : HandleId
  frontierBackendId : HandleId
  isAuthority : Bool
  selectChainId : HandleId
  babeConfig : BabeConfig
  sharedEpochChangesId : HandleId
  keystoreId : HandleId
  sharedVoterStateId : HandleId
  sharedAuthoritySetId : HandleId
  justificationStreamId : HandleId
  subscriptionExecutorId : HandleId
  finalityProofProviderId : HandleId
  maxPastLogs : Nat
  deriving DecidableEq, Repr, Inhabited

/-- The side-effect state visible to one invocation of the RPC
dependency-injector closure: the allocation counter for shared instances and
the list of spawned background tasks. -/
structure BuildSt where
  next : Nat
  tasks : List SpawnedTask
  deriving DecidableEq, Repr, Inhabited

/-- Embedding of the `rpc_extensions_builder` closure body (service.rs lines
325-353): every field of the dependency set is a reference-counted clone of a
captured handle (or a plain captured value); the body allocates no new shared
instance and spawns no task, so the state passes through unchanged. -/
def rpcExtensionsBuilder (cap : RpcCaptured) (denyUnsafe : Bool)
    (subscriptionExecutorId : HandleId) (st : BuildSt) : FullDeps × BuildSt :=
  let pending := cloneHandle cap.pendingTransactionsId
  (({ clientId := cloneHandle cap.clientId
      poolId := cloneHandle cap.poolId
      denyUnsafe
      enableDevSigner := false
      networkId := cloneHandle cap.rpcNetworkId
      pendingTransactionsId := cloneHandle pending
      frontierBackendId := cloneHandle cap.frontierBackendId
      isAuthority := cap.isAuthority
      selectChainId := cloneHandle cap.selectChainId
      babeConfig := cap.babeConfig
      sharedEpochChangesId := cloneHandle cap.sharedEpochChangesId
      keystoreId := cloneHandle cap.keystoreId
      sharedVoterStateId := cloneHandle cap.sharedVoterStateId
      sharedAuthoritySetId := cloneHandle cap.sharedAuthoritySetId
      justificationStreamId := cloneHandle cap.justificationStreamId
      subscriptionExecutorId
      finalityProofProviderId := cloneHandle cap.finalityProofProviderId
      maxPastLogs := cap.maxPastLogs } : FullDeps), st)

/-- The consistency strategies of the Mapping Sync Worker.  `normal` is
`fc_mapping_sync::SyncStrategy::Normal`, the variant the source names
(best-effort, eventually consistent).  `strict` is modelled from the spec:
the alternative strategy the spec describes for the worker. -/
inductive SyncStrategy
  | normal
  | strict
  deriving DecidableEq, Repr, Inhabited

/-- The strategy argument at the `MappingSyncWorker::new` call site
(service.rs line 364): the literal `SyncStrategy::Normal`, not an expression
reading the configuration. -/
def mappingSyncStrategyArg : SyncStrategy := .normal

/-- The arguments `MappingSyncWorker::new` receives (service.rs lines
358-365): the import-notification stream of the client, a duration, the
client, the backend, the frontier backend and a strategy — and nothing
else. -/
structure MappingSyncArgs where
  notificationStreamOfClient : HandleId
  durationSecs : Nat
  clientId : HandleId
  backendId : HandleId
  frontierBackendId : HandleId
  strategy : SyncStrategy
  deriving DecidableEq, Repr, Inhabited

/-- Every shared handle the Mapping Sync Worker is constructed with; a map it
is never handed cannot be mutated by it. -/
def mappingSyncCapturedHandles (a : MappingSyncArgs) : List HandleId :=
  [a.notificationStreamOfClient, a.clientId, a.backendId, a.frontierBackendId]

/-- The `sc_finality_grandpa::Config` record built at service.rs lines
477-486. -/
structure GrandpaConfig where
  gossipDurationMillis : Nat
  justificationPeriod : Nat
  name : Option String
  observerEnabled : Bool
  keystore : Option HandleId
  localRoleIsAuthority : Bool
  deriving DecidableEq, Repr, Inhabited

/-- Which GRANDPA protocol task the service runs: `run_grandpa_voter` (the
full voter) or `run_grandpa_observer` (the modelled-from-spec alternative the
source never calls). -/
inductive GrandpaTaskKind
  | fullVoter
  | observer
  deriving DecidableEq, Repr, Inhabited

/-- The GRANDPA voter setup of service.rs lines 511-526: the
`GrandpaParams` fields the claims concern, plus which protocol task is
spawned. -/
structure GrandpaVoter where
  config : GrandpaConfig
  linkAuthoritySetId : HandleId
  linkJustificationStreamId : HandleId
  sharedVoterStateId : HandleId
  kind : GrandpaTaskKind
  deriving DecidableEq, Repr, Inhabited

/-- The `sc_consensus_babe::BabeParams` fields the claims concern
(service.rs lines 434-460); `slotDuration` is the value captured by the
`create_inherent_data_providers` closure at line 433. -/
structure BabeParams where
  keystoreId : HandleId
  clientId : HandleId
  selectChainId : HandleId
  blockImport : BlockImport
  slotDuration : Nat
  forceAuthoring : Bool
  deriving DecidableEq, Repr, Inhabited

/-- Everything `new_full` wires together, with shared instances as ids.
`partialPendingTransactionsId` is the map `new_partial` returned (bound as
`_pending_transactions` and dropped); `pendingTransactionsId` is the map
allocated at line 304 and captured by the RPC builder;
`sharedVoterStateId` is the `SharedVoterState::empty()` of line 312 captured
by the RPC builder; the voter's own shared voter state sits inside
`grandpaVoter`. -/
structure FullService where
  clientId : HandleId
  backendId : HandleId
  transactionPoolId : HandleId
  partialPendingTransactionsId : HandleId
  pendingTransactionsId : HandleId
  warpSyncAuthoritySetId : HandleId
  grandpaLinkAuthoritySetId : HandleId
  sharedVoterStateId : HandleId
  sharedAuthoritySetId : HandleId
  finalityProofProviderId : HandleId
  finalityProofProviderAuthoritySetId : HandleId
  subscriptionTaskExecutorId : HandleId
  rpcCaptured : RpcCaptured
  mappingSync : MappingSyncArgs
  importQueueSlotDuration : Nat
  consensusImport : BlockImport
  babeParams : Option BabeParams
  grandpaConfig : GrandpaConfig
  grandpaVoter : Option GrandpaVoter
  tasks : List SpawnedTask
  deriving DecidableEq, Repr, Inhabited

/-- The Mapping Sync Worker task, spawned on the essential handle
(service.rs line 356). -/
def mappingSyncTask : SpawnedTask :=
  { name := "frontier-mapping-sync-worker", cls := .essential, kind := .normal }

/-- The authority-discovery task, spawned on the ordinary handle
(service.rs line 415). -/
def authorityDiscoveryTask : SpawnedTask :=
  { name := "authority-discovery-worker", cls := .ordinary, kind := .normal }

/-- The BABE production-worker task, spawned blocking on the essential handle
(service.rs line 464). -/
def babeTask : SpawnedTask :=
  { name := "babe", cls := .essential, kind := .blocking }

/-- The GRANDPA voter task, spawned blocking on the essential handle
(service.rs line 523). -/
def grandpaVoterTask : SpawnedTask :=
  { name := "grandpa-voter", cls := .essential, kind := .blocking }

/-- Embedding of the body of `new_full` after the partial components and the
remote-keystore hookup (service.rs lines 266-530): shared instances are
allocated or cloned in source order, the workers are spawned on their
handles, and the GRANDPA voter is set up when grandpa is enabled.  External
fallible calls (`build_network`, `spawn_tasks`, `start_babe`,
`run_grandpa_voter` construction) are modelled as succeeding, since their
failure modes live outside this file. -/
def newFullRest (config : Configuration) (parts : PartialComponents) (n : Nat) :
    FullService :=
  let warpSyncAuthoritySetId := cloneHandle parts.grandpaLink.sharedAuthoritySetId
  let (networkId, n) := allocHandle n
  let role_isAuthority := config.roleIsAuthority
  let enableGrandpa := !config.disableGrandpa
  let rpcNetworkId := cloneHandle networkId
  let (pendingTransactionsId, n) := allocHandle n
  let (subscriptionExecutorId, n) := allocHandle n
  let babeConfig := parts.babeLink.config
  let sharedEpochChangesId := cloneHandle parts.babeLink.epochChangesId
  let justificationStreamId := cloneHandle parts.grandpaLink.justificationStreamId
  let sharedAuthoritySetId := cloneHandle parts.grandpaLink.sharedAuthoritySetId
  let (sharedVoterStateId, n) := allocHandle n
  let (finalityProofProviderId, n) := allocHandle n
  let finalityProofProviderAuthoritySetId := cloneHandle sharedAuthoritySetId
  let rpcCaptured : RpcCaptured :=
    { clientId := cloneHandle parts.clientId
      poolId := cloneHandle parts.transactionPoolId
      keystoreId := cloneHandle parts.keystoreContainerId
      selectChainId := cloneHandle parts.selectChainId
      pendingTransactionsId := cloneHandle pendingTransactionsId
      frontierBackendId := cloneHandle parts.frontierBackendId
      rpcNetworkId
      isAuthority := role_isAuthority
      babeConfig
      sharedEpochChangesId
      sharedVoterStateId := cloneHandle sharedVoterStateId
      sharedAuthoritySetId := cloneHandle sharedAuthoritySetId
      justificationStreamId
      finalityProofProviderId := cloneHandle finalityProofProviderId
      maxPastLogs := 10000 }
  let mappingSync : MappingSyncArgs :=
    { notificationStreamOfClient := cloneHandle parts.clientId
      durationSecs := 6
      clientId := cloneHandle parts.clientId
      backendId := cloneHandle parts.backendId
      frontierBackendId := cloneHandle parts.frontierBackendId
      strategy := mappingSyncStrategyArg }
  let babeParams : Option BabeParams :=
    if role_isAuthority then
      some
        { keystoreId := cloneHandle parts.keystoreContainerId
          clientId := cloneHandle parts.clientId
          selectChainId := cloneHandle parts.selectChainId
          blockImport := parts.consensusImport
          slotDuration := parts.babeLink.config.slotDuration
          forceAuthoring := config.forceAuthoring }
    else none
  let keystore : Option HandleId :=
    if role_isAuthority then some (cloneHandle parts.keystoreContainerId) else none
  let grandpaConfig : GrandpaConfig :=
    { gossipDurationMillis := 333
      justificationPeriod := 512
      name := some config.nodeName
      observerEnabled := false
      keystore
      localRoleIsAuthority := config.roleIsAuthority }
  let grandpaVoter : Option GrandpaVoter :=
    if enableGrandpa then
      let voterSharedVoterStateId := (allocHandle n).1
      some
        { config := grandpaConfig
          linkAuthoritySetId := parts.grandpaLink.sharedAuthoritySetId
          linkJustificationStreamId := parts.grandpaLink.justificationStreamId
          sharedVoterStateId := voterSharedVoterStateId
          kind := .fullVoter }
    else none
  let tasks :=
    parts.tasks
      ++ [mappingSyncTask]
      ++ (if config.telemetryEndpointsNonempty then [telemetryTask] else [])
      ++ (if role_isAuthority then [authorityDiscoveryTask] else [])
      ++ (if role_isAuthority then [babeTask] else [])
      ++ (if enableGrandpa then [grandpaVoterTask] else [])
  { clientId := parts.clientId
    backendId := parts.backendId
    transactionPoolId := parts.transactionPoolId
    partialPendingTransactionsId := parts.pendingTransactionsId
    pendingTransactionsId
    warpSyncAuthoritySetId
    grandpaLinkAuthoritySetId := parts.grandpaLink.sharedAuthoritySetId
    sharedVoterStateId
    sharedAuthoritySetId
    finalityProofProviderId
    finalityProofProviderAuthoritySetId
    subscriptionTaskExecutorId := subscriptionExecutorId
    rpcCaptured
    mappingSync
    importQueueSlotDuration := parts.importQueueSlotDuration
    consensusImport := parts.consensusImport
    babeParams
    grandpaConfig
    grandpaVoter
    tasks }

/-- Embedding of `new_full` (service.rs lines 241-531): first
`new_partial`, then the remote-keystore hookup branch (whose `Ok` arm is
kept although `remote_keystore` always fails), then the rest of the
construction. -/
def newFull (config : Configuration) (babeGenesis : BabeConfig) :
    Except ServiceError FullService :=
  match newPartial config babeGenesis 0 with
  | .error e => .error e
  | .ok (parts, n) =>
    match config.keystoreRemote with
    | some url =>
      match remoteKeystore url with
      | .ok _k => .ok (newFullRest config parts n)
      | .error e =>
        .error (.other ("Error hooking up remote keystore for " ++ url ++ ": " ++ e))
    | none => .ok (newFullRest config parts n)

/-- Modelled from the spec:
`sp_consensus_babe::inherents::InherentDataProvider::from_timestamp_and_duration`
(external crate, not under `src/`): the slot is the current timestamp divided
by the fixed slot duration. -/
def slotFromTimestampAndDuration (timestamp slotDurationMillis : Nat) : Nat :=
  timestamp / slotDurationMillis

/-- The slot the import queue's inherent-data-provider closure (service.rs
lines 200-210) yields for a timestamp: it applies
`from_timestamp_and_duration` to the `slot_duration` it captured. -/
def importQueueInherentSlot (svc : FullService) (timestamp : Nat) : Nat :=
  slotFromTimestampAndDuration timestamp svc.importQueueSlotDuration

/-- The slot the production worker's `create_inherent_data_providers`
closure (service.rs lines 442-452) yields for a timestamp: it applies
`from_timestamp_and_duration` to the `slot_duration` it captured. -/
def babeWorkerInherentSlot (bp : BabeParams) (timestamp : Nat) : Nat :=
  slotFromTimestampAndDuration timestamp bp.slotDuration

/-- Modelled from the spec: a GRANDPA voter signs and submits votes only
through its keystore (`sc_finality_grandpa` is an external crate); a voter
configured with `keystore = None` issues no votes. -/
def canIssueVotes (c : GrandpaConfig) : Bool := c.keystore.isSome

/-- How a component touches a shared piece of state. -/
inductive AccessKind
  | read
  | write
  deriving DecidableEq, Repr, Inhabited

/-- Modelled from the spec: the warp-sync
`sc_finality_grandpa::warp_proof::NetworkProvider` (external crate, not under
`src/`) derives fast-sync proofs from the authority-set snapshot; its
accesses to the shared authority set are reads. -/
def warpSyncAuthoritySetAccesses : List AccessKind := [.read]

/-- Modelled from the spec: the GRANDPA RPC handlers (external `runtime_rpc`
crate, not under `src/`) read the shared authority set via snapshots only. -/
def rpcAuthoritySetAccesses : List AccessKind := [.read]

/-- The strategy the Mapping Sync Worker receives under a configuration,
`none` when the service fails to build at all. -/
def mappingSyncStrategyOf (config : Configuration) (babeGenesis : BabeConfig) :
    Option SyncStrategy :=
  (newFull config babeGenesis).toOption.map fun r => r.mappingSync.strategy

/-- A development authority configuration: no remote keystore, authority
role, grandpa enabled, no telemetry endpoints. -/
def cfgDefault : Configuration :=
  { keystoreRemote := none
    roleIsAuthority := true
    disableGrandpa := false
    forceAuthoring := false
    telemetryEndpointsNonempty := false
    offchainWorkerEnabled := true
    nodeName := "alice" }

/-- The same node run without the authority role. -/
def cfgNonAuthority : Configuration := { cfgDefault with roleIsAuthority := false }

/-- A configuration that sets a remote keystore URL. -/
def cfgRemote : Configuration := { cfgDefault with keystoreRemote := some "tcp://keys" }

/-- A concrete BABE genesis configuration (slot duration in milliseconds). -/
def babeDefault : BabeConfig := { slotDuration := 3000 }

/-- The service `new_full` builds for the default authority configuration. -/
def fullDefault : FullService :=
  match newFull cfgDefault babeDefault with
  | .ok r => r
  | .error _ => default

/-- The service `new_full` builds for the non-authority configuration. -/
def fullNonAuthority : FullService :=
  match newFull cfgNonAuthority babeDefault with
  | .ok r => r
  | .error _ => default

/-- The BABE production-worker parameters of the default authority service. -/
def babeParamsDefault : BabeParams := fullDefault.babeParams.getD default

/-- What `newFullRest` computes once the allocation counter of `newPartial`
is threaded through: every shared-instance id written out.  The equation
`newFull_keystoreNone` proves this is exactly what `newFull` returns when no
remote keystore is configured. -/
def fullServiceOf (config : Configuration) (babeGenesis : BabeConfig) : FullService :=
  { clientId := 0
    backendId := 1
    transactionPoolId := 4
    partialPendingTransactionsId := 5
    pendingTransactionsId := 11
    warpSyncAuthoritySetId := 7
    grandpaLinkAuthoritySetId := 7
    sharedVoterStateId := 13
    sharedAuthoritySetId := 7
    finalityProofProviderId := 14
    finalityProofProviderAuthoritySetId := 7
    subscriptionTaskExecutorId := 12
    rpcCaptured :=
      { clientId := 0
        poolId := 4
        keystoreId := 2
        selectChainId := 3
        pendingTransactionsId := 11
        frontierBackendId := 6
        rpcNetworkId := 10
        isAuthority := config.roleIsAuthority
        babeConfig := babeGenesis
        sharedEpochChangesId := 9
        sharedVoterStateId := 13
        sharedAuthoritySetId := 7
        justificationStreamId := 8
        finalityProofProviderId := 14
        maxPastLogs := 10000 }
    mappingSync :=
      { notificationStreamOfClient := 0
        durationSecs := 6
        clientId := 0
        backendId := 1
        frontierBackendId := 6
        strategy := .normal }
    importQueueSlotDuration := babeGenesis.slotDuration
    consensusImport := .babe (.frontier (.grandpa .client))
    babeParams :=
      if config.roleIsAuthority then
        some
          { keystoreId := 2
            clientId := 0
            selectChainId := 3
            blockImport := .babe (.frontier (.grandpa .client))
            slotDuration := babeGenesis.slotDuration
            forceAuthoring := config.forceAuthoring }
      else none
    grandpaConfig :=
      { gossipDurationMillis := 333
        justificationPeriod := 512
        name := some config.nodeName
        observerEnabled := false
        keystore := if config.roleIsAuthority then some 2 else none
        localRoleIsAuthority := config.roleIsAuthority }
    grandpaVoter :=
      if !config.disableGrandpa then
        some
          { config :=
              { gossipDurationMillis := 333
                justificationPeriod := 512
                name := some config.nodeName
                observerEnabled := false
                keystore := if config.roleIsAuthority then some 2 else none
                localRoleIsAuthority := config.roleIsAuthority }
            linkAuthoritySetId := 7
            linkJustificationStreamId := 8
            sharedVoterStateId := 15
            kind := .fullVoter }
      else none
    tasks :=
      (if config.telemetryEndpointsNonempty then [telemetryTask] else [])
        ++ [mappingSyncTask]
        ++ (if config.telemetryEndpointsNonempty then [telemetryTask] else [])
        ++ (if config.roleIsAuthority then [authorityDiscoveryTask] else [])
        ++ (if config.roleIsAuthority then [babeTask] else [])
        ++ (if !config.disableGrandpa then [grandpaVoterTask] else []) }

/-- With no remote keystore, `new_partial` succeeds and returns the
components with the ids drawn in allocation order. -/
theorem newPartial_keystoreNone (config : Configuration) (babeGenesis : BabeConfig)
    (h : config.keystoreRemote = none) :
    newPartial config babeGenesis 0 =
      .ok
        ({ clientId := 0
           backendId := 1
           keystoreContainerId := 2
           selectChainId := 3
           transactionPoolId := 4
           pendingTransactionsId := 5
           frontierBackendId := 6
           consensusImport := .babe (.frontier (.grandpa .client))
           grandpaLink := ⟨7, 8⟩
           babeLink := ⟨babeGenesis, 9⟩
           importQueueSlotDuration := babeGenesis.slotDuration
           tasks := if config.telemetryEndpointsNonempty then [telemetryTask] else [] },
         10) := by
  simp [newPartial, h, allocHandle]

/-- With no remote keystore, `new_full` succeeds and returns exactly the
wiring `fullServiceOf` writes out. -/
theorem newFull_keystoreNone (config : Configuration) (babeGenesis : BabeConfig)
    (h : config.keystoreRemote = none) :
    newFull config babeGenesis = .ok (fullServiceOf config babeGenesis) := by
  unfold newFull
  rw [newPartial_keystoreNone config babeGenesis h, h]
  simp [newFullRest, fullServiceOf, allocHandle, cloneHandle, mappingSyncStrategyArg]

/-- With a remote keystore configured, `new_full` fails with the
`new_partial` rejection. -/
theorem newFull_keystoreSome (config : Configuration) (babeGenesis : BabeConfig)
    (url : String) (h : config.keystoreRemote = some url) :
    newFull config babeGenesis = .error (.other "Remote Keystores are not supported.") := by
  unfold newFull newPartial
  rw [h]
  rfl

/-- The default authority build succeeds with `fullDefault`. -/
theorem newFull_cfgDefault : newFull cfgDefault babeDefault = .ok fullDefault := rfl

/-- The non-authority build succeeds with `fullNonAuthority`. -/
theorem newFull_cfgNonAuthority :
    newFull cfgNonAuthority babeDefault = .ok fullNonAuthority := rfl

/-- C1: the claim says the voter-state handle captured by the RPC dependency
injector is the same shared instance given to the running GRANDPA voter task.
In the built default service they are distinct instances: `new_full` calls
`SharedVoterState::empty()` twice, once for the RPC capture (service.rs line
312) and once more inside `GrandpaParams` (line 517), so RPC readers observe
a voter state the voter never mutates. -/
theorem C1_rpc_voter_state_not_the_voters :
    fullDefault.grandpaVoter.map GrandpaVoter.sharedVoterStateId ≠
        some fullDefault.rpcCaptured.sharedVoterStateId ∧
      (fullDefault.grandpaVoter.map GrandpaVoter.sharedVoterStateId).isSome = true := by
  decide

/-- C2 counterexample: the stage chain of the built service is not
compatibility-index first, then finality-aware, then slot-authoring, then
store-commit, as the claim states. -/
theorem C2_counterexample :
    stageOrder fullDefault.consensusImport ≠
      [Stage.compatIndex, Stage.finalityAware, Stage.slotAuthoring, Stage.storeCommit] := by
  decide

/-- C2 (amended): the block-import pipeline is a fixed, ordered chain of
stages, each wrapping the next so that stage n calls stage n+1 only if it
accepts the block, but with the slot-authoring (BABE) stage outermost and
entered first, then the compatibility-index (EVM/Frontier) stage, then the
finality-aware (GRANDPA) stage, then the store-commit stage. -/
theorem C2_pipeline_order (config : Configuration) (babeGenesis : BabeConfig)
    (r : FullService) (h : newFull config babeGenesis = .ok r) :
    stageOrder r.consensusImport =
        [Stage.slotAuthoring, Stage.compatIndex, Stage.finalityAware, Stage.storeCommit] ∧
      ∀ accepts : Stage → Bool,
        stagesExecuted accepts r.consensusImport =
          chainRun accepts (stageOrder r.consensusImport) := by
  rcases hks : config.keystoreRemote with _ | url
  · rw [newFull_keystoreNone config babeGenesis hks] at h
    injection h with h
    subst h
    exact ⟨rfl, fun accepts => rfl⟩
  · rw [newFull_keystoreSome config babeGenesis url hks] at h
    simp at h

/-- C2 witness: the pipeline order of the default build, concretely. -/
theorem C2_pipeline_order_witness :
    stageOrder fullDefault.consensusImport =
      [Stage.slotAuthoring, Stage.compatIndex, Stage.finalityAware, Stage.storeCommit] :=
  (C2_pipeline_order cfgDefault babeDefault fullDefault newFull_cfgDefault).1

/-- C3 counterexample: the pending-transaction map the RPC dependency
injector captures is not among the handles the Mapping Sync Worker is
constructed with, and it is not the map `new_partial` created either. -/
theorem C3_counterexample :
    fullDefault.rpcCaptured.pendingTransactionsId ∉
        mappingSyncCapturedHandles fullDefault.mappingSync ∧
      fullDefault.rpcCaptured.pendingTransactionsId ≠
        fullDefault.partialPendingTransactionsId := by
  decide

/-- C3 (amended): the Mapping Sync Worker is constructed only from the
import-notification stream, the client, the backend, the frontier backend, a
duration and a strategy; it is never handed the pending-transaction map, so
the map the RPC dependency injector captures (allocated in `new_full`, while
the one `new_partial` created is discarded) is not a map the Mapping Sync
Worker updates. -/
theorem C3_pending_map_not_given_to_worker (config : Configuration)
    (babeGenesis : BabeConfig) (r : FullService)
    (h : newFull config babeGenesis = .ok r) :
    r.rpcCaptured.pendingTransactionsId ∉ mappingSyncCapturedHandles r.mappingSync ∧
      r.rpcCaptured.pendingTransactionsId = r.pendingTransactionsId ∧
      r.rpcCaptured.pendingTransactionsId ≠ r.partialPendingTransactionsId := by
  rcases hks : config.keystoreRemote with _ | url
  · rw [newFull_keystoreNone config babeGenesis hks] at h
    injection h with h
    subst h
    simp [fullServiceOf, mappingSyncCapturedHandles]
  · rw [newFull_keystoreSome config babeGenesis url hks] at h
    simp at h

/-- C3 witness: the concrete default build. -/
theorem C3_witness :
    fullDefault.rpcCaptured.pendingTransactionsId =
      fullDefault.pendingTransactionsId :=
  (C3_pending_map_not_given_to_worker cfgDefault babeDefault fullDefault
    newFull_cfgDefault).2.1

/-- C4: in every successful build, the GRANDPA voter, the BABE production
worker and the Mapping Sync Worker tasks are spawned on the essential handle
(so under the lifecycle contract their termination triggers full shutdown),
while telemetry and authority-discovery are spawned on the ordinary handle;
the Mapping Sync Worker is always spawned, BABE when the role is authority,
and the voter when grandpa is enabled. -/
theorem C4_task_classes (config : Configuration) (babeGenesis : BabeConfig)
    (r : FullService) (h : newFull config babeGenesis = .ok r) :
    (∀ t ∈ r.tasks,
        t.name = "grandpa-voter" ∨ t.name = "babe" ∨
            t.name = "frontier-mapping-sync-worker" →
          t.cls = SpawnClass.essential ∧ terminationTriggersShutdown t.cls = true) ∧
      (∀ t ∈ r.tasks,
          t.name = "telemetry" ∨ t.name = "authority-discovery-worker" →
            t.cls = SpawnClass.ordinary ∧ terminationTriggersShutdown t.cls = false) ∧
      mappingSyncTask ∈ r.tasks ∧
      (config.roleIsAuthority = true → babeTask ∈ r.tasks) ∧
      (config.disableGrandpa = false → grandpaVoterTask ∈ r.tasks) := by
  rcases hks : config.keystoreRemote with _ | url
  · rw [newFull_keystoreNone config babeGenesis hks] at h
    injection h with h
    subst h
    cases hauth : config.roleIsAuthority <;>
      cases hdg : config.disableGrandpa <;>
        cases htel : config.telemetryEndpointsNonempty <;>
          simp [fullServiceOf, hauth, hdg, htel, telemetryTask, mappingSyncTask,
            authorityDiscoveryTask, babeTask, grandpaVoterTask,
            terminationTriggersShutdown]
  · rw [newFull_keystoreSome config babeGenesis url hks] at h
    simp at h

/-- C4 witness: the default authority build spawns all three essential
workers. -/
theorem C4_task_classes_witness :
    mappingSyncTask ∈ fullDefault.tasks ∧ babeTask ∈ fullDefault.tasks ∧
      grandpaVoterTask ∈ fullDefault.tasks := by
  have h := C4_task_classes cfgDefault babeDefault fullDefault newFull_cfgDefault
  exact ⟨h.2.2.1, h.2.2.2.1 rfl, h.2.2.2.2 rfl⟩

/-- C5 counterexample: for the non-authority build the spawned finality task
is the full GRANDPA voter, not the observer, and observer mode is explicitly
disabled in its configuration. -/
theorem C5_counterexample :
    fullNonAuthority.grandpaVoter.map GrandpaVoter.kind =
        some GrandpaTaskKind.fullVoter ∧
      GrandpaTaskKind.fullVoter ≠ GrandpaTaskKind.observer ∧
      fullNonAuthority.grandpaConfig.observerEnabled = false := by
  decide

/-- C5 (amended): when the node is not an authority the service still runs
the full GRANDPA voter (observer mode is disabled), but with no keystore,
so the voter cannot sign or submit votes, while it still holds the link's
justification stream (the same one exposed to RPC). -/
theorem C5_nonauthority_full_voter_without_keystore (config : Configuration)
    (babeGenesis : BabeConfig) (r : FullService)
    (h : newFull config babeGenesis = .ok r)
    (hauth : config.roleIsAuthority = false) :
    r.grandpaConfig.observerEnabled = false ∧
      r.grandpaConfig.keystore = none ∧
      canIssueVotes r.grandpaConfig = false ∧
      ∀ v, r.grandpaVoter = some v →
        v.kind = GrandpaTaskKind.fullVoter ∧
          v.config.keystore = none ∧
          canIssueVotes v.config = false ∧
          v.linkJustificationStreamId = r.rpcCaptured.justificationStreamId := by
  rcases hks : config.keystoreRemote with _ | url
  · rw [newFull_keystoreNone config babeGenesis hks] at h
    injection h with h
    subst h
    cases hdg : config.disableGrandpa <;>
      simp [fullServiceOf, canIssueVotes, hauth, hdg]
  · rw [newFull_keystoreSome config babeGenesis url hks] at h
    simp at h

/-- C5 witness: the concrete non-authority build. -/
theorem C5_witness :
    fullNonAuthority.grandpaConfig.observerEnabled = false ∧
      fullNonAuthority.grandpaConfig.keystore = none ∧
      canIssueVotes fullNonAuthority.grandpaConfig = false := by
  have h := C5_nonauthority_full_voter_without_keystore cfgNonAuthority babeDefault
    fullNonAuthority newFull_cfgNonAuthority rfl
  exact ⟨h.1, h.2.1, h.2.2.1⟩

/-- C6 counterexample: the strategy the Mapping Sync Worker receives is the
same for every configuration — `SyncStrategy::Normal` whenever the service
builds at all — so it does not depend on the node configuration. -/
theorem C6_counterexample :
    mappingSyncStrategyOf =
      fun config _ =>
        if config.keystoreRemote.isSome then none else some SyncStrategy.normal := by
  funext config babeGenesis
  rcases hks : config.keystoreRemote with _ | url
  · unfold mappingSyncStrategyOf
    rw [newFull_keystoreNone config babeGenesis hks]
    rfl
  · unfold mappingSyncStrategyOf
    rw [newFull_keystoreSome config babeGenesis url hks]
    rfl

/-- C6 (amended): the Mapping Sync Worker always runs with the hardcoded
`SyncStrategy::Normal` (best-effort, eventually consistent); the strict
strategy is never selected and the strategy does not depend on the
configuration. -/
theorem C6_strategy_not_configurable (config : Configuration)
    (babeGenesis : BabeConfig) (r : FullService)
    (h : newFull config babeGenesis = .ok r) :
    r.mappingSync.strategy = SyncStrategy.normal ∧
      r.mappingSync.strategy ≠ SyncStrategy.strict ∧
      r.mappingSync.strategy = mappingSyncStrategyArg := by
  rcases hks : config.keystoreRemote with _ | url
  · rw [newFull_keystoreNone config babeGenesis hks] at h
    injection h with h
    subst h
    simp [fullServiceOf, mappingSyncStrategyArg]
  · rw [newFull_keystoreSome config babeGenesis url hks] at h
    simp at h

/-- C6 witness: the concrete default build. -/
theorem C6_witness :
    fullDefault.mappingSync.strategy = SyncStrategy.normal :=
  (C6_strategy_not_configurable cfgDefault babeDefault fullDefault
    newFull_cfgDefault).1

/-- C7: the RPC dependency-injector closure is side-effect free beyond
capturing references: it allocates no new shared instance and spawns no task
(the state passes through unchanged — in particular it creates no new
Mapping Sync Worker and no new pending-transaction map), every handle of the
dependency set it builds is the captured instance itself, and any two
invocations build handler dependencies sharing the same underlying
instances. -/
theorem C7_rpc_builder_frame (cap : RpcCaptured) (d₁ d₂ : Bool)
    (s₁ s₂ : HandleId) (st₁ st₂ : BuildSt) :
    (rpcExtensionsBuilder cap d₁ s₁ st₁).2 = st₁ ∧
      (rpcExtensionsBuilder cap d₁ s₁ st₁).2.next = st₁.next ∧
      (rpcExtensionsBuilder cap d₁ s₁ st₁).2.tasks = st₁.tasks ∧
      (rpcExtensionsBuilder cap d₁ s₁ st₁).1.clientId = cap.clientId ∧
      (rpcExtensionsBuilder cap d₁ s₁ st₁).1.poolId = cap.poolId ∧
      (rpcExtensionsBuilder cap d₁ s₁ st₁).1.networkId = cap.rpcNetworkId ∧
      (rpcExtensionsBuilder cap d₁ s₁ st₁).1.pendingTransactionsId =
        cap.pendingTransactionsId ∧
      (rpcExtensionsBuilder cap d₁ s₁ st₁).1.frontierBackendId =
        cap.frontierBackendId ∧
      (rpcExtensionsBuilder cap d₁ s₁ st₁).1.selectChainId = cap.selectChainId ∧
      (rpcExtensionsBuilder cap d₁ s₁ st₁).1.babeConfig = cap.babeConfig ∧
      (rpcExtensionsBuilder cap d₁ s₁ st₁).1.sharedEpochChangesId =
        cap.sharedEpochChangesId ∧
      (rpcExtensionsBuilder cap d₁ s₁ st₁).1.keystoreId = cap.keystoreId ∧
      (rpcExtensionsBuilder cap d₁ s₁ st₁).1.sharedVoterStateId =
        cap.sharedVoterStateId ∧
      (rpcExtensionsBuilder cap d₁ s₁ st₁).1.sharedAuthoritySetId =
        cap.sharedAuthoritySetId ∧
      (rpcExtensionsBuilder cap d₁ s₁ st₁).1.justificationStreamId =
        cap.justificationStreamId ∧
      (rpcExtensionsBuilder cap d₁ s₁ st₁).1.finalityProofProviderId =
        cap.finalityProofProviderId ∧
      (rpcExtensionsBuilder cap d₁ s₁ st₁).1.pendingTransactionsId =
        (rpcExtensionsBuilder cap d₂ s₂ st₂).1.pendingTransactionsId ∧
      (rpcExtensionsBuilder cap d₁ s₁ st₁).1.clientId =
        (rpcExtensionsBuilder cap d₂ s₂ st₂).1.clientId ∧
      (rpcExtensionsBuilder cap d₁ s₁ st₁).1.sharedVoterStateId =
        (rpcExtensionsBuilder cap d₂ s₂ st₂).1.sharedVoterStateId ∧
      (rpcExtensionsBuilder cap d₁ s₁ st₁).1.sharedAuthoritySetId =
        (rpcExtensionsBuilder cap d₂ s₂ st₂).1.sharedAuthoritySetId ∧
      (rpcExtensionsBuilder cap d₁ s₁ st₁).1.finalityProofProviderId =
        (rpcExtensionsBuilder cap d₂ s₂ st₂).1.finalityProofProviderId := by
  simp [rpcExtensionsBuilder, cloneHandle]

/-- C8: the warp-sync provider, the finality-proof provider and the RPC
capture all hold the very authority-set instance owned by the grandpa link
(the one the voter task is given), and the modelled reader accesses to it
are reads only. -/
theorem C8_authority_set_shared_and_read_only (config : Configuration)
    (babeGenesis : BabeConfig) (r : FullService)
    (h : newFull config babeGenesis = .ok r) :
    r.warpSyncAuthoritySetId = r.grandpaLinkAuthoritySetId ∧
      r.rpcCaptured.sharedAuthoritySetId = r.grandpaLinkAuthoritySetId ∧
      r.finalityProofProviderAuthoritySetId = r.grandpaLinkAuthoritySetId ∧
      (∀ v, r.grandpaVoter = some v →
        v.linkAuthoritySetId = r.grandpaLinkAuthoritySetId) ∧
      ∀ a ∈ warpSyncAuthoritySetAccesses ++ rpcAuthoritySetAccesses,
        a = AccessKind.read := by
  rcases hks : config.keystoreRemote with _ | url
  · rw [newFull_keystoreNone config babeGenesis hks] at h
    injection h with h
    subst h
    cases hdg : config.disableGrandpa <;>
      simp [fullServiceOf, hdg, warpSyncAuthoritySetAccesses, rpcAuthoritySetAccesses]
  · rw [newFull_keystoreSome config babeGenesis url hks] at h
    simp at h

/-- C8 witness: the concrete default build. -/
theorem C8_witness :
    fullDefault.warpSyncAuthoritySetId = fullDefault.grandpaLinkAuthoritySetId ∧
      fullDefault.rpcCaptured.sharedAuthoritySetId =
        fullDefault.grandpaLinkAuthoritySetId := by
  have h := C8_authority_set_shared_and_read_only cfgDefault babeDefault fullDefault
    newFull_cfgDefault
  exact ⟨h.1, h.2.1⟩

/-- C9: the import queue's inherent-data provider and the production
worker's inherent-data provider compute the slot in exactly the same way —
the timestamp divided by the one slot duration read from the BABE link — so
they agree on every timestamp, and the slot is monotone in the timestamp. -/
theorem C9_slot_is_timestamp_div_duration (config : Configuration)
    (babeGenesis : BabeConfig) (r : FullService) (bp : BabeParams)
    (h : newFull config babeGenesis = .ok r) (hbp : r.babeParams = some bp) :
    (∀ timestamp,
        babeWorkerInherentSlot bp timestamp = importQueueInherentSlot r timestamp) ∧
      (∀ timestamp,
        importQueueInherentSlot r timestamp =
          timestamp / babeGenesis.slotDuration) ∧
      ∀ t₁ t₂, t₁ ≤ t₂ →
        importQueueInherentSlot r t₁ ≤ importQueueInherentSlot r t₂ := by
  rcases hks : config.keystoreRemote with _ | url
  · rw [newFull_keystoreNone config babeGenesis hks] at h
    injection h with h
    subst h
    cases hauth : config.roleIsAuthority
    · simp [fullServiceOf, hauth] at hbp
    · simp [fullServiceOf, hauth] at hbp
      subst hbp
      exact ⟨fun timestamp => rfl, fun timestamp => rfl,
        fun t₁ t₂ hle => Nat.div_le_div_right hle⟩
  · rw [newFull_keystoreSome config babeGenesis url hks] at h
    simp at h

/-- C9 witness: with a 3000 ms slot duration, both providers map timestamp
9000 to slot 3, and the slot is monotone between timestamps 6000 and 9000. -/
theorem C9_witness :
    babeWorkerInherentSlot babeParamsDefault 9000 =
        importQueueInherentSlot fullDefault 9000 ∧
      importQueueInherentSlot fullDefault 9000 = 3 ∧
      importQueueInherentSlot fullDefault 6000 ≤
        importQueueInherentSlot fullDefault 9000 := by
  have h := C9_slot_is_timestamp_div_duration cfgDefault babeDefault fullDefault
    babeParamsDefault newFull_cfgDefault rfl
  exact ⟨h.1 9000, by rw [h.2.1 9000]; rfl, h.2.2 6000 9000 (by decide)⟩

/-- C10: every configuration with a remote keystore URL is rejected by
`new_partial`, hence `new_full` fails before its remote-keystore hookup
branch; and the only error `new_full` itself produces is that rejection, so
the hookup branch's error never surfaces. -/
theorem C10_remote_keystore_unreachable :
    (∀ (config : Configuration) (babeGenesis : BabeConfig) (url : String),
        config.keystoreRemote = some url →
          newPartial config babeGenesis 0 =
              .error (.other "Remote Keystores are not supported.") ∧
            newFull config babeGenesis =
              .error (.other "Remote Keystores are not supported.")) ∧
      ∀ (config : Configuration) (babeGenesis : BabeConfig) (e : ServiceError),
        newFull config babeGenesis = .error e →
          e = .other "Remote Keystores are not supported." := by
  constructor
  · intro config babeGenesis url h
    refine ⟨?_, newFull_keystoreSome config babeGenesis url h⟩
    unfold newPartial
    rw [h]
    rfl
  · intro config babeGenesis e h
    rcases hks : config.keystoreRemote with _ | url
    · rw [newFull_keystoreNone config babeGenesis hks] at h
      simp at h
    · rw [newFull_keystoreSome config babeGenesis url hks] at h
      injection h with h
      exact h.symm

/-- C10 witness: the concrete remote-keystore configuration is rejected with
the `new_partial` error. -/
theorem C10_witness :
    newFull cfgRemote babeDefault =
      .error (.other "Remote Keystores are not supported.") :=
  (C10_remote_keystore_unreachable.1 cfgRemote babeDefault "tcp://keys" rfl).2

end AutomataService
